import Mathlib

/-!
Verification of the event-ticketing client (session store, approval
workflow, catalog filtering, role-gated routing), shallowly embedded
from the TypeScript source.

Conventions of the embedding:
- `localStorage` / `sessionStorage` slots are `Option String`
  (`none` = no entry, matching `getItem` returning `null`).
- JavaScript string truthiness (`!s`, `a || b`, `if (s)`) is modelled by
  `jsTruthy` / `jsOr`: the empty string and `null` are falsy.
- User objects stored as JSON are represented by their serialized string;
  `JSON.parse` / `JSON.stringify` are inverse and modelled as identity on
  that representation.
- Side effects of a handler (toasts shown, HTTP request dispatched,
  navigation) are returned as explicit data.
-/

/-- JavaScript truthiness for a nullable string: `null` and `""` are falsy. -/
def jsTruthy : Option String → Bool
  | none => false
  | some s => s ≠ ""

/-- JavaScript `a || b` on nullable strings. -/
def jsOr (a b : Option String) : Option String :=
  if jsTruthy a then a else b

/-- JavaScript `s.trim()`: leading and trailing whitespace removed,
represented as the character list of the result. -/
def jsTrim (s : String) : List Char :=
  ((s.data.dropWhile Char.isWhitespace).reverse.dropWhile Char.isWhitespace).reverse

/-- A decimal digit value, `none` for a non-digit character. -/
def digitVal? (c : Char) : Option Nat :=
  if c.isDigit then some (c.toNat - 48) else none

/-- Accumulating decimal parse of a character list; fails on the first
non-digit. -/
def parseNatAux : List Char → Nat → Option Nat
  | [], acc => some acc
  | c :: cs, acc =>
    match digitVal? c with
    | some d => parseNatAux cs (acc * 10 + d)
    | none => none

/-- Parse a string as a decimal natural number; `none` when empty or
containing a non-digit. -/
def parseNat? (s : String) : Option Nat :=
  match s.data with
  | [] => none
  | l => parseNatAux l 0

/-- JavaScript `s.toLowerCase()`: each character mapped to lower case,
represented as the character list of the result. -/
def jsToLower (s : String) : List Char :=
  s.data.map Char.toLower

/-- JavaScript `s.toLowerCase().includes(pat.toLowerCase())`:
case-insensitive substring containment. -/
def includesCI (s pat : String) : Bool :=
  decide (jsToLower pat <:+: jsToLower s)

/-- A toast notification raised by a handler. -/
inductive Toast
  | success (msg : String)
  | error (msg : String)
  deriving DecidableEq, Repr

/-! ## Session store (AuthContext and the axios instance)

Source: the `AuthContext` provider (`loadUserFromStorage`, `login`,
`logout`) and the axios request/response interceptors in `lib/axios`. -/

/-- One browser storage tier (`localStorage` or `sessionStorage`),
restricted to the two keys this code uses: `token` and `user`
(the user entry holds the JSON-serialized user). -/
structure StorageTier where
  token : Option String
  user : Option String
  deriving DecidableEq, Repr

/-- Both storage tiers visible to the axios interceptors. -/
structure BrowserStorage where
  localT : StorageTier
  sessionT : StorageTier
  deriving DecidableEq, Repr

/-- The client-global session state: both storage tiers, the axios
`defaults.headers.common.Authorization` value, and the React context
`user` / `token` state (the user represented by its serialization). -/
structure SessionState where
  storage : BrowserStorage
  defaultAuth : Option String
  ctxUser : Option String
  ctxToken : Option String
  deriving DecidableEq, Repr

/-- `loadUserFromStorage` (AuthContext startup hydration): reads `token`
and `user` from localStorage; when both are truthy it loads them into
context state and sets the default Authorization header; otherwise it
leaves the session anonymous. It performs no API call, so the list of
requests it issues is empty. -/
def loadUserFromStorage (s : SessionState) : SessionState × List String :=
  if jsTruthy s.storage.localT.token ∧ jsTruthy s.storage.localT.user then
    ({ s with
        ctxUser := s.storage.localT.user
        ctxToken := s.storage.localT.token
        defaultAuth := some ("Bearer " ++ s.storage.localT.token.getD "") },
     [])
  else
    (s, [])

/-- `login(newToken, userData)` of AuthContext: sets context state,
writes both entries to localStorage, and sets the default header. -/
def login (s : SessionState) (newToken userData : String) : SessionState :=
  { s with
      ctxUser := some userData
      ctxToken := some newToken
      storage :=
        { s.storage with
            localT := { token := some newToken, user := some userData } }
      defaultAuth := some ("Bearer " ++ newToken) }

/-- `logout()` of AuthContext: clears context state, removes `token` and
`user` from localStorage, and deletes the default Authorization header.
The source touches only localStorage; sessionStorage is left as is. -/
def logout (s : SessionState) : SessionState :=
  { s with
      ctxUser := none
      ctxToken := none
      storage := { s.storage with localT := { token := none, user := none } }
      defaultAuth := none }

/-- The axios request interceptor: reads
`localStorage.getItem('token') || sessionStorage.getItem('token')` and,
when the result is truthy, sets the Authorization header of the outgoing
config to `Bearer <token>`; otherwise the config header is unchanged.
`auth0` is the Authorization value the config carries before the
interceptor runs. -/
def requestInterceptor (storage : BrowserStorage) (auth0 : Option String) :
    Option String :=
  let token := jsOr storage.localT.token storage.sessionT.token
  if jsTruthy token then some ("Bearer " ++ token.getD "") else auth0

/-- The Authorization value an outbound request ends up with: axios merges
the instance default header into the config, then the request interceptor
runs on it. -/
def outboundAuth (s : SessionState) : Option String :=
  requestInterceptor s.storage s.defaultAuth

/-- The axios response error interceptor: on a 401 status it removes
`token` and `user` from both storage tiers; every other status leaves
the state alone. The redirect to the sign-in page is commented out in
the source, so the navigation it performs is always `none` (second
component). -/
def responseErrorInterceptor (status : Option Nat) (s : SessionState) :
    SessionState × Option String :=
  if status = some 401 then
    ({ s with storage := { localT := { token := none, user := none },
                           sessionT := { token := none, user := none } } },
     none)
  else
    (s, none)

/-! ## Approval workflow (EventApproval.handleReview and
PendingEvents.handleQuickAction) -/

/-- The two target statuses a review button can request. -/
inductive ReviewStatus
  | approved
  | rejected
  deriving DecidableEq, Repr

/-- Rendering of a `ReviewStatus` into the template strings of the
source (`'approved'` / `'rejected'`). -/
def ReviewStatus.str : ReviewStatus → String
  | .approved => "approved"
  | .rejected => "rejected"

/-- Body of the `PUT /admin/events/:id/review` request sent by
`EventApproval.handleReview`. -/
structure ReviewRequestBody where
  approvalStatus : ReviewStatus
  adminFeedback : String
  deriving DecidableEq, Repr

/-- The network request `handleReview` dispatches, if any:
`if (status === 'rejected' && !feedback.trim())` it raises an error toast
and returns without any network call; otherwise it sends the review
request with the feedback as typed. -/
def handleReviewRequest (status : ReviewStatus) (feedback : String) :
    Option ReviewRequestBody :=
  if status = ReviewStatus.rejected ∧ jsTrim feedback = [] then none
  else some { approvalStatus := status, adminFeedback := feedback }

/-- The toasts `handleReview` raises before / instead of dispatching:
on the guard path, exactly the one error toast of the source. -/
def handleReviewGuardToasts (status : ReviewStatus) (feedback : String) :
    List Toast :=
  if status = ReviewStatus.rejected ∧ jsTrim feedback = [] then
    [Toast.error "Please provide feedback explaining why the event was rejected"]
  else []

/-- Minimal projection of a pending event as listed by the
`PendingEvents` queue view. -/
structure PendingEvent where
  id : String
  title : String
  date : String
  location : String
  organizerName : Option String
  createdAt : String
  deriving DecidableEq, Repr

/-- Body of the `PUT /admin/events/:id/review` request sent by
`PendingEvents.handleQuickAction` (`{ status, reviewNotes }`). -/
structure QuickReviewBody where
  status : ReviewStatus
  reviewNotes : String
  deriving DecidableEq, Repr

/-- Outcome of the awaited review request: a `success: true` envelope,
a `success: false` envelope with an optional message, or a thrown
transport error with an optional response message. -/
inductive ReviewResponse
  | success
  | failure (msg : Option String)
  | transportError (msg : Option String)
  deriving DecidableEq, Repr

/-- Result of one `handleQuickAction` run: the request dispatched (if
any), the new local pending list, and the toasts raised. -/
structure QuickActionResult where
  request : Option QuickReviewBody
  events : List PendingEvent
  toasts : List Toast
  deriving Repr

/-- `PendingEvents.handleQuickAction(eventId, status)`: for a rejection
the feedback comes from `prompt` (possibly cancelled, hence
`Option String`); for an approval it is `''`. If
`status === 'rejected' && !feedback`, an error toast is raised and no
request is sent. Otherwise the request `{status, reviewNotes: feedback || ''}`
is sent; on success the event is removed from the local list
(`events.filter(event => event._id !== eventId)`), on a failure envelope
or a thrown error a toast is raised and the list is untouched. -/
def handleQuickAction (events : List PendingEvent) (eventId : String)
    (status : ReviewStatus) (promptResult : Option String)
    (resp : ReviewResponse) : QuickActionResult :=
  let feedback : Option String :=
    if status = ReviewStatus.rejected then promptResult else some ""
  if status = ReviewStatus.rejected ∧ jsTruthy feedback = false then
    { request := none
      events := events
      toasts := [Toast.error "Feedback is required for rejections"] }
  else
    let req : QuickReviewBody :=
      { status := status, reviewNotes := (jsOr feedback (some "")).getD "" }
    match resp with
    | ReviewResponse.success =>
        { request := some req
          events := events.filter (fun event => event.id ≠ eventId)
          toasts := [Toast.success ("Event " ++ status.str ++ " successfully")] }
    | ReviewResponse.failure msg =>
        { request := some req
          events := events
          toasts := [Toast.error
            ((jsOr msg (some ("Failed to " ++ status.str ++ " event"))).getD "")] }
    | ReviewResponse.transportError msg =>
        { request := some req
          events := events
          toasts := [Toast.error
            ((jsOr msg (some ("An error occurred while " ++ status.str
              ++ "ing the event"))).getD "")] }

/-! ## Event submission form (CreateEvent) -/

/-- One ticket tier row of the create-event form; all three fields are
raw input strings. -/
structure TicketType where
  name : String
  price : String
  quantity : String
  deriving DecidableEq, Repr

/-- The tier filter applied when `handleSubmit` builds the payload:
`ticketTypes.filter(ticket => ticket.name && ticket.price && ticket.quantity)`
keeps exactly the tiers whose three fields are truthy (non-empty). -/
def submittedTickets (ticketTypes : List TicketType) : List TicketType :=
  ticketTypes.filter fun ticket =>
    ticket.name ≠ "" && ticket.price ≠ "" && ticket.quantity ≠ ""

/-- `validateForm`'s ticket check: at least one tier with all three
fields truthy. -/
def hasValidTicket (ticketTypes : List TicketType) : Bool :=
  ticketTypes.any fun ticket =>
    ticket.name ≠ "" && ticket.price ≠ "" && ticket.quantity ≠ ""

/-- The tier-validity predicate as the spec words it: non-empty name,
numeric price, numeric quantity at least 1 (spec-side definition, for
comparison with the filter the source applies). -/
def specValidTier (t : TicketType) : Bool :=
  t.name ≠ "" && (parseNat? t.price).isSome &&
    (match parseNat? t.quantity with
     | some q => q ≥ 1
     | none => false)

/-! ## Public catalog view (events/EventsList) -/

/-- The approval workflow state of an event. -/
inductive ApprovalStatus
  | pending
  | approved
  | rejected
  deriving DecidableEq, Repr

/-- An event as the catalog and the backing collection carry it. The
fields the catalog view reads are those of its `Event` interface
(title, description, date, location, category, organizer name, images);
`approvalStatus` and `published` are the workflow fields of the stored
entity. -/
structure CatalogEvent where
  id : String
  title : String
  description : String
  date : String
  location : String
  category : String
  organizerName : Option String
  images : List String
  approvalStatus : ApprovalStatus
  published : Bool
  deriving DecidableEq, Repr

/-- The search half of the catalog filter: case-insensitive substring
match of the search term against title, description, location, or the
organizer name when an organizer is present (`|| false` otherwise). -/
def matchesSearch (event : CatalogEvent) (searchTerm : String) : Bool :=
  includesCI event.title searchTerm ||
  includesCI event.description searchTerm ||
  includesCI event.location searchTerm ||
  (match event.organizerName with
   | some n => includesCI n searchTerm
   | none => false)

/-- The category half of the catalog filter: the selected category is
`'all'` or equals the event category. -/
def matchesCategory (event : CatalogEvent) (selectedCategory : String) : Bool :=
  selectedCategory = "all" || event.category = selectedCategory

/-- `filteredEvents` of the catalog view: both halves composed with
`&&` over the fetched collection. -/
def catalogFilteredEvents (events : List CatalogEvent)
    (searchTerm selectedCategory : String) : List CatalogEvent :=
  events.filter fun event =>
    matchesSearch event searchTerm && matchesCategory event selectedCategory

/-- Modelled from the spec: the server-side handler of `GET /events`
(called by `fetchApprovedEvents`) is not part of this client-only
source tree; per the spec it returns the public events filtered
server-side to approved and published. -/
def serverGetEvents (db : List CatalogEvent) : List CatalogEvent :=
  db.filter fun event =>
    event.approvalStatus = ApprovalStatus.approved && event.published

/-! ## Role-gated router (ProtectedRoute) -/

/-- The user roles of the client. -/
inductive Role
  | user
  | admin
  | organizer
  | doctor
  | propertyOwner
  deriving DecidableEq, Repr

/-- A user as held by the auth context, restricted to the fields the
router reads. -/
structure RouteUser where
  id : String
  name : String
  email : String
  role : Role
  deriving DecidableEq, Repr

/-- What a render of `ProtectedRoute` produces. -/
inductive RouteOutcome
  | loadingView
  | navigate (dest : String)
  | renderChildren
  deriving DecidableEq, Repr

/-- `ProtectedRoute`: while the auth context is loading it shows a
placeholder; with no user it navigates to `/signin`; with a required
role the user does not carry it navigates to `/`; otherwise it renders
the protected children. -/
def ProtectedRoute (loading : Bool) (user : Option RouteUser)
    (requiredRole : Option Role) : RouteOutcome :=
  if loading then RouteOutcome.loadingView
  else
    match user with
    | none => RouteOutcome.navigate "/signin"
    | some u =>
        match requiredRole with
        | some r =>
            if u.role ≠ r then RouteOutcome.navigate "/"
            else RouteOutcome.renderChildren
        | none => RouteOutcome.renderChildren

/-! ## Concrete fixtures used by witnesses and counterexamples -/

/-- An admin user for the routing examples. -/
def adminUser : RouteUser :=
  { id := "u1", name := "Ada", email := "ada@example.com", role := Role.admin }

/-- A pending-queue entry. -/
def pe1 : PendingEvent :=
  { id := "p1", title := "Beach Run", date := "2025-01-01",
    location := "Galle", organizerName := some "Ama", createdAt := "2024-12-01" }

/-- A second pending-queue entry. -/
def pe2 : PendingEvent :=
  { id := "p2", title := "Food Walk", date := "2025-02-01",
    location := "Kandy", organizerName := none, createdAt := "2024-12-02" }

/-- The music event of the spec's catalog example. -/
def jazzEvent : CatalogEvent :=
  { id := "e1", title := "Jazz Night", description := "", date := "",
    location := "", category := "music", organizerName := none, images := [],
    approvalStatus := ApprovalStatus.approved, published := true }

/-- The culinary event of the spec's catalog example. -/
def foodEvent : CatalogEvent :=
  { id := "e2", title := "Food Fest", description := "", date := "",
    location := "", category := "culinary", organizerName := none, images := [],
    approvalStatus := ApprovalStatus.approved, published := true }

/-- A non-approved event sitting in a fetched catalog collection. -/
def pendingCatalogEvent : CatalogEvent :=
  { id := "e3", title := "Pending Party", description := "", date := "",
    location := "", category := "music", organizerName := none, images := [],
    approvalStatus := ApprovalStatus.pending, published := true }

/-- A session created by a login without remember-me: the token and user
live in sessionStorage, as `OrganizerLoginPage.handleLogin` writes them. -/
def sessionOnlyState : SessionState :=
  { storage := { localT := { token := some "t", user := some "u" },
                 sessionT := { token := some "s", user := some "v" } },
    defaultAuth := some "Bearer t", ctxUser := some "u", ctxToken := some "t" }

/-- A fresh client whose durable storage holds a token and a serialized
user, before hydration. -/
def hydrateState : SessionState :=
  { storage := { localT := { token := some "tok", user := some "usr" },
                 sessionT := { token := none, user := none } },
    defaultAuth := none, ctxUser := none, ctxToken := none }

/-- A well-formed ticket tier. -/
def vipTier : TicketType := { name := "VIP", price := "100", quantity := "10" }

/-- A tier with an empty name. -/
def emptyNameTier : TicketType := { name := "", price := "50", quantity := "20" }

/-- A tier whose three inputs are non-empty but whose quantity is the
numeric string `0`. -/
def badTier : TicketType :=
  { name := "General Admission", price := "10", quantity := "0" }

/-! ## Claim theorems -/

/-- C1: a review action with target status `rejected` and empty feedback
is rejected client-side: `handleReview` dispatches no request exactly
when the trimmed feedback is empty (so never for empty feedback, and a
dispatched rejection always carries non-empty feedback), surfacing an
error toast; `handleQuickAction` likewise dispatches no request exactly
when the prompt feedback is cancelled or empty, surfacing an error
toast. -/
theorem C1_rejection_requires_feedback :
    (∀ feedback : String,
        handleReviewRequest ReviewStatus.rejected feedback = none ↔
          jsTrim feedback = [])
    ∧ handleReviewGuardToasts ReviewStatus.rejected "" =
        [Toast.error "Please provide feedback explaining why the event was rejected"]
    ∧ (∀ (events : List PendingEvent) (eventId : String)
          (promptResult : Option String) (resp : ReviewResponse),
        ((handleQuickAction events eventId ReviewStatus.rejected promptResult
            resp).request = none ↔ jsTruthy promptResult = false)
        ∧ (handleQuickAction events eventId ReviewStatus.rejected (some "")
            resp).toasts = [Toast.error "Feedback is required for rejections"]) := by
  refine ⟨?_, by decide, ?_⟩
  · intro feedback
    unfold handleReviewRequest
    by_cases h : jsTrim feedback = [] <;> simp [h]
  · intro events eventId promptResult resp
    constructor
    · unfold handleQuickAction
      by_cases h : jsTruthy promptResult = false
      · simp [h]
      · cases resp <;> simp [h]
    · unfold handleQuickAction
      simp [jsTruthy]

/-- C7: the response interceptor reacts to a 401 status by removing the
token and user entries from both storage tiers, and it performs no
redirect (the navigation component is always `none`). -/
theorem C7_unauthorized_clears_credentials :
    ∀ s : SessionState,
      (responseErrorInterceptor (some 401) s).1.storage =
        { localT := { token := none, user := none },
          sessionT := { token := none, user := none } }
      ∧ (responseErrorInterceptor (some 401) s).2 = none := by
  intro s
  constructor <;> simp [responseErrorInterceptor]

/-- C8: hydration from durable storage is a pure read: when localStorage
holds a truthy token and user pair, `loadUserFromStorage` loads them
into the session and sets the Authorization default, issuing no network
request; when the pair is absent the state is left unchanged, so the
session stays anonymous. -/
theorem C8_hydration_without_network :
    ∀ s : SessionState,
      (jsTruthy s.storage.localT.token = true →
        jsTruthy s.storage.localT.user = true →
        (loadUserFromStorage s).1.ctxUser = s.storage.localT.user
        ∧ (loadUserFromStorage s).1.ctxToken = s.storage.localT.token
        ∧ (loadUserFromStorage s).1.defaultAuth =
            some ("Bearer " ++ s.storage.localT.token.getD "")
        ∧ (loadUserFromStorage s).2 = [])
      ∧ (¬(jsTruthy s.storage.localT.token = true
            ∧ jsTruthy s.storage.localT.user = true) →
        (loadUserFromStorage s).1 = s ∧ (loadUserFromStorage s).2 = []) := by
  intro s
  constructor
  · intro ht hu
    simp [loadUserFromStorage, ht, hu]
  · intro h
    simp only [loadUserFromStorage]
    rw [if_neg]
    · exact ⟨rfl, rfl⟩
    · exact fun hc => h ⟨hc.1, hc.2⟩

/-- Witness for C8 at a concrete hydration state. -/
theorem C8_hydration_without_network_witness :
    (jsTruthy hydrateState.storage.localT.token = true
      ∧ jsTruthy hydrateState.storage.localT.user = true)
    ∧ ((loadUserFromStorage hydrateState).1.ctxUser =
          hydrateState.storage.localT.user
        ∧ (loadUserFromStorage hydrateState).1.ctxToken =
            hydrateState.storage.localT.token
        ∧ (loadUserFromStorage hydrateState).1.defaultAuth =
            some ("Bearer " ++ hydrateState.storage.localT.token.getD "")
        ∧ (loadUserFromStorage hydrateState).2 = []) :=
  ⟨by decide,
   (C8_hydration_without_network hydrateState).1 (by decide) (by decide)⟩

/-- C10: the request interceptor prefers the durable token: a truthy
localStorage token is attached as `Bearer` regardless of the session
tier; with no truthy localStorage token a truthy sessionStorage token is
attached; with neither, the config Authorization is left as it was, so
a bare config gains no Authorization header. -/
theorem C10_token_precedence :
    ∀ (storage : BrowserStorage) (auth0 : Option String),
      (∀ t : String, storage.localT.token = some t → t ≠ "" →
        requestInterceptor storage auth0 = some ("Bearer " ++ t))
      ∧ (∀ t : String, jsTruthy storage.localT.token = false →
          storage.sessionT.token = some t → t ≠ "" →
          requestInterceptor storage auth0 = some ("Bearer " ++ t))
      ∧ (jsTruthy storage.localT.token = false →
          jsTruthy storage.sessionT.token = false →
          requestInterceptor storage auth0 = auth0) := by
  intro storage auth0
  refine ⟨?_, ?_, ?_⟩
  · intro t hl ht
    simp [requestInterceptor, jsOr, jsTruthy, hl, ht]
  · intro t hl hs ht
    simp only [requestInterceptor, jsOr, hl, hs]
    simp [jsTruthy, ht]
  · intro hl hs
    simp [requestInterceptor, jsOr, hl, hs]

/-- Witness for C10: both tiers hold tokens and the durable one wins;
a session-only token is attached; an empty client attaches nothing. -/
theorem C10_token_precedence_witness :
    ((({ localT := { token := some "lt", user := none },
         sessionT := { token := some "st", user := none } } :
        BrowserStorage)).localT.token = some "lt" ∧ "lt" ≠ ""
      ∧ requestInterceptor
          { localT := { token := some "lt", user := none },
            sessionT := { token := some "st", user := none } } none =
          some ("Bearer " ++ "lt"))
    ∧ requestInterceptor
        { localT := { token := none, user := none },
          sessionT := { token := some "st", user := none } } none =
        some ("Bearer " ++ "st")
    ∧ requestInterceptor
        { localT := { token := none, user := none },
          sessionT := { token := none, user := none } } none = none :=
  ⟨⟨by decide, by decide,
    (C10_token_precedence
      { localT := { token := some "lt", user := none },
        sessionT := { token := some "st", user := none } } none).1 "lt"
      (by decide) (by decide)⟩,
   (C10_token_precedence
      { localT := { token := none, user := none },
        sessionT := { token := some "st", user := none } } none).2.1 "st"
      (by decide) (by decide) (by decide),
   (C10_token_precedence
      { localT := { token := none, user := none },
        sessionT := { token := none, user := none } } none).2.2
      (by decide) (by decide)⟩

/-- C2 counterexample: a non-approved event present in the fetched
collection is rendered by the catalog pipeline — `filteredEvents` never
reads `approvalStatus`, so with an empty search term and category `all`
the pending event appears in the result. -/
theorem C2_client_pipeline_shows_pending :
    pendingCatalogEvent.approvalStatus ≠ ApprovalStatus.approved
    ∧ catalogFilteredEvents [pendingCatalogEvent] "" "all" =
        [pendingCatalogEvent] := by
  constructor
  · decide
  · decide

/-- C2 (amended): non-approved events are kept out of the catalog by the
server-side `GET /events` filter (modelled from the spec), not by the
client pipeline: every event the catalog view renders after fetching
from that endpoint has approval status `approved`, for every search
term and category selection. -/
theorem C2_server_side_suppression :
    ∀ (db : List CatalogEvent) (searchTerm selectedCategory : String),
      (catalogFilteredEvents (serverGetEvents db) searchTerm
          selectedCategory).all
        (fun e => e.approvalStatus == ApprovalStatus.approved) = true := by
  intro db searchTerm selectedCategory
  rw [List.all_eq_true]
  intro e he
  unfold catalogFilteredEvents at he
  have h1 : e ∈ serverGetEvents db := List.mem_of_mem_filter he
  unfold serverGetEvents at h1
  have h2 := List.of_mem_filter h1
  simp only [Bool.and_eq_true, decide_eq_true_eq] at h2
  simp [h2.1]

/-- C3 counterexample: after a session-tier login (remember-me off),
`logout()` leaves the sessionStorage token in place and the next
outbound request still carries an Authorization value built from it. -/
theorem C3_logout_misses_session_tier :
    (logout sessionOnlyState).storage.sessionT.token = some "s"
    ∧ outboundAuth (logout sessionOnlyState) = some "Bearer s" := by
  constructor
  · decide
  · decide

/-- C3 (amended): `logout()` clears the durable tier and the context
state and removes the attached default credential, but leaves the
session-scoped tier untouched; a subsequent request carries no
Authorization value provided the session tier holds no truthy token. -/
theorem C3_logout_clears_durable_tier :
    ∀ s : SessionState,
      (logout s).storage.localT.token = none
      ∧ (logout s).storage.localT.user = none
      ∧ (logout s).ctxUser = none
      ∧ (logout s).ctxToken = none
      ∧ (logout s).defaultAuth = none
      ∧ (logout s).storage.sessionT = s.storage.sessionT
      ∧ (jsTruthy s.storage.sessionT.token = false →
          outboundAuth (logout s) = none) := by
  intro s
  refine ⟨rfl, rfl, rfl, rfl, rfl, rfl, ?_⟩
  intro h
  cases hs : s.storage.sessionT.token with
  | none =>
      simp [outboundAuth, logout, requestInterceptor, jsOr, jsTruthy, hs]
  | some t =>
      rw [hs] at h
      have ht : t = "" := by
        by_contra hne
        simp [jsTruthy, hne] at h
      subst ht
      simp [outboundAuth, logout, requestInterceptor, jsOr, jsTruthy, hs]

/-- Witness for C3 (amended): a purely durable session, logged out. -/
theorem C3_logout_clears_durable_tier_witness :
    jsTruthy hydrateState.storage.sessionT.token = false
    ∧ ((logout hydrateState).storage.localT.token = none
      ∧ (logout hydrateState).storage.localT.user = none
      ∧ (logout hydrateState).ctxUser = none
      ∧ (logout hydrateState).ctxToken = none
      ∧ (logout hydrateState).defaultAuth = none
      ∧ (logout hydrateState).storage.sessionT = hydrateState.storage.sessionT
      ∧ (jsTruthy hydrateState.storage.sessionT.token = false →
          outboundAuth (logout hydrateState) = none)) :=
  ⟨by decide, C3_logout_clears_durable_tier hydrateState⟩

/-- C4 counterexample: a tier whose quantity input is the numeric string
`0` fails the claimed test (numeric quantity at least 1) yet is included
in the submitted payload — the source filter only checks the three
inputs for truthiness. -/
theorem C4_zero_quantity_tier_submitted :
    specValidTier badTier = false
    ∧ submittedTickets [vipTier, badTier] = [vipTier, badTier] := by
  constructor
  · decide
  · decide

/-- C4 (amended): the payload contains exactly the tiers whose name,
price and quantity input strings are all non-empty; no numeric check and
no lower bound on the quantity is applied. In particular two tiers where
one has an empty name yield only the other tier. -/
theorem C4_submitted_tiers_nonempty_fields :
    (∀ (l : List TicketType) (t : TicketType),
        t ∈ submittedTickets l ↔
          t ∈ l ∧ t.name ≠ "" ∧ t.price ≠ "" ∧ t.quantity ≠ "")
    ∧ submittedTickets [vipTier, emptyNameTier] = [vipTier] := by
  constructor
  · intro l t
    unfold submittedTickets
    rw [List.mem_filter]
    simp [and_assoc]
  · decide

/-- C5: with hydration finished, `ProtectedRoute` with a required role
yields exactly one of three outcomes, as a pure function of the session
and the required role: no user navigates to the sign-in page, a user
with a different role navigates to `/`, a user with the required role
renders the protected children; the loading placeholder never shows. -/
theorem C5_role_gated_routing :
    ∀ (user : Option RouteUser) (r : Role),
      (user = none →
        ProtectedRoute false user (some r) = RouteOutcome.navigate "/signin")
      ∧ (∀ u : RouteUser, user = some u → u.role ≠ r →
          ProtectedRoute false user (some r) = RouteOutcome.navigate "/")
      ∧ (∀ u : RouteUser, user = some u → u.role = r →
          ProtectedRoute false user (some r) = RouteOutcome.renderChildren)
      ∧ ProtectedRoute false user (some r) ≠ RouteOutcome.loadingView := by
  intro user r
  refine ⟨?_, ?_, ?_, ?_⟩
  · intro h
    simp [h, ProtectedRoute]
  · intro u hu hr
    simp [hu, ProtectedRoute, hr]
  · intro u hu hr
    simp [hu, ProtectedRoute, hr]
  · cases user with
    | none => simp [ProtectedRoute]
    | some u =>
        simp only [ProtectedRoute]
        by_cases h : u.role = r <;> simp [h]

/-- Witness for C5 at the three concrete cases. -/
theorem C5_role_gated_routing_witness :
    ProtectedRoute false none (some Role.admin) = RouteOutcome.navigate "/signin"
    ∧ ProtectedRoute false (some adminUser) (some Role.organizer) =
        RouteOutcome.navigate "/"
    ∧ ProtectedRoute false (some adminUser) (some Role.admin) =
        RouteOutcome.renderChildren :=
  ⟨(C5_role_gated_routing none Role.admin).1 rfl,
   (C5_role_gated_routing (some adminUser) Role.organizer).2.1 adminUser rfl
     (by decide),
   (C5_role_gated_routing (some adminUser) Role.admin).2.2.1 adminUser rfl
     (by decide)⟩

/-- C6: the catalog filter returns exactly the fetched events that match
the search term as a case-insensitive substring of title, description,
location, or organizer name, and whose category equals the selection or
the selection is `all`, the two composed with logical AND; on the spec's
example list, `jazz` with `all` yields only the Jazz Night event and
`culinary` with an empty search yields only the Food Fest event. -/
theorem C6_catalog_filter_composition :
    (∀ (events : List CatalogEvent) (searchTerm selectedCategory : String)
        (e : CatalogEvent),
      e ∈ catalogFilteredEvents events searchTerm selectedCategory ↔
        e ∈ events
        ∧ (jsToLower searchTerm <:+: jsToLower e.title
           ∨ jsToLower searchTerm <:+: jsToLower e.description
           ∨ jsToLower searchTerm <:+: jsToLower e.location
           ∨ (∃ n, e.organizerName = some n
                ∧ jsToLower searchTerm <:+: jsToLower n))
        ∧ (selectedCategory = "all" ∨ e.category = selectedCategory))
    ∧ catalogFilteredEvents [jazzEvent, foodEvent] "jazz" "all" = [jazzEvent]
    ∧ catalogFilteredEvents [jazzEvent, foodEvent] "" "culinary" =
        [foodEvent] := by
  refine ⟨?_, by decide, by decide⟩
  intro events searchTerm selectedCategory e
  unfold catalogFilteredEvents
  rw [List.mem_filter]
  unfold matchesSearch matchesCategory includesCI
  cases h : e.organizerName with
  | none => simp [h, or_assoc]
  | some n => simp [h, or_assoc]

/-- C9: a dispatched review action (the rejection-feedback guard not
tripped) resolves as: on a success envelope the local pending list keeps
exactly the entries whose id differs from the reviewed one, in order; on
a failure envelope or a transport error an error toast is raised and the
list is left entirely unchanged. -/
theorem C9_review_resolution_frame :
    ∀ (events : List PendingEvent) (eventId : String)
      (status : ReviewStatus) (promptResult : Option String),
      (status = ReviewStatus.rejected → jsTruthy promptResult = true) →
      ((handleQuickAction events eventId status promptResult
          ReviewResponse.success).events =
        events.filter (fun e => e.id ≠ eventId))
      ∧ (∀ e : PendingEvent,
          e ∈ (handleQuickAction events eventId status promptResult
              ReviewResponse.success).events ↔ e ∈ events ∧ e.id ≠ eventId)
      ∧ (∀ msg : Option String,
          (handleQuickAction events eventId status promptResult
              (ReviewResponse.failure msg)).events = events
          ∧ (handleQuickAction events eventId status promptResult
              (ReviewResponse.transportError msg)).events = events
          ∧ (∃ emsg, (handleQuickAction events eventId status promptResult
              (ReviewResponse.failure msg)).toasts = [Toast.error emsg])
          ∧ (∃ emsg, (handleQuickAction events eventId status promptResult
              (ReviewResponse.transportError msg)).toasts =
                [Toast.error emsg])) := by
  intro events eventId status promptResult hguard
  have hg : ¬(status = ReviewStatus.rejected ∧
      jsTruthy (if status = ReviewStatus.rejected then promptResult
        else some "") = false) := by
    rintro ⟨h1, h2⟩
    rw [if_pos h1, hguard h1] at h2
    exact Bool.noConfusion h2
  have hsucc : (handleQuickAction events eventId status promptResult
      ReviewResponse.success).events = events.filter (fun e => e.id ≠ eventId) := by
    simp [handleQuickAction, if_neg hg]
  refine ⟨hsucc, ?_, ?_⟩
  · intro e
    rw [hsucc, List.mem_filter]
    simp
  · intro msg
    refine ⟨?_, ?_,
      ⟨(jsOr msg (some ("Failed to " ++ status.str ++ " event"))).getD "", ?_⟩,
      ⟨(jsOr msg (some ("An error occurred while " ++ status.str
          ++ "ing the event"))).getD "", ?_⟩⟩
    all_goals simp [handleQuickAction, if_neg hg]

/-- Witness for C9: approving the first of two pending events. -/
theorem C9_review_resolution_frame_witness :
    (ReviewStatus.approved = ReviewStatus.rejected →
      jsTruthy (none : Option String) = true)
    ∧ (handleQuickAction [pe1, pe2] "p1" ReviewStatus.approved none
        ReviewResponse.success).events =
      [pe1, pe2].filter (fun e => e.id ≠ "p1") :=
  ⟨by decide,
   (C9_review_resolution_frame [pe1, pe2] "p1" ReviewStatus.approved none
     (by decide)).1⟩
